import Mathlib

/-!
# Verification of the `propagation-tx` transaction propagation engine

Shallow embedding of the repository: the transaction carrier
(`transactionContext`), the propagation engine
(`transactionManager.Transaction` and its seven `with*Propagation`
methods), `transactionManager.GetDB`, the DB factory
(`GlobalCachedDBFactory`), and the configuration defaulting
(`PatchDefaultConfig`), all embedded from the Go source in
`src/sql` (the engine, config and carrier live in the segments of
`src/sql/transaction_test.go`; the factory in `src/sql/conn.go`).

Driver interaction (BEGIN / COMMIT / ROLLBACK / SAVEPOINT / ROLLBACK TO)
is modelled as a trace of operations on an explicit driver state;
physical transactions are identified by natural numbers handed out by a
fresh-id counter.  The driver state also fixes the driver's response to
BEGIN, SAVEPOINT and COMMIT, so the failure paths of the engine (the
`TxError` check after `Begin`, the `SavePoint(...).Error` check, and a
failing `Commit`) are part of the model.  A `gorm.DB` value carries its
`Error` field (`errF`) and its `DisableNestedTransaction` flag.
-/

/-- Errors of the library and of its collaborators.  The first three are
the `errors.New` values declared in the transaction source; `EmptyDatabase`
models the `panic("database must be set")` of `PatchDefaultConfig`;
`driver` and `biz` stand for arbitrary driver errors and user (`bizFn`)
errors. -/
inductive Err where
  | CommitWithoutTransaction
  | NeverPropInTransaction
  | MandatoryPropWithoutTransaction
  | EmptyDatabase
  | driver (n : Nat)
  | biz (n : Nat)
deriving DecidableEq, Repr

/-- One operation issued to the relational driver, tagged with the
physical transaction it targets.  Savepoint names are modelled as
natural numbers standing for the `fmt.Sprintf("sp%p", bizFn)` name the
engine derives from the frame's identity. -/
inductive DriverOp where
  | begin (t : Nat)
  | commit (t : Nat)
  | rollback (t : Nat)
  | savepoint (t : Nat) (name : Nat)
  | rollbackTo (t : Nat) (name : Nat)
deriving DecidableEq, Repr

/-- The driver world: a counter handing out fresh physical transaction
ids, the trace of operations that took effect so far, and the driver's
response to a BEGIN that would create transaction `t` (`beginErr t`),
to `SAVEPOINT name` on transaction `t` (`savepointErr t name`), and to
a COMMIT of transaction `t` (`commitErr t`); `none` = success. -/
structure DriverState where
  nextTx : Nat
  trace : List DriverOp
  beginErr : Nat → Option Err
  savepointErr : Nat → Nat → Option Err
  commitErr : Nat → Option Err

/-- A `*gorm.DB` handle: a plain pool handle (`txId = none`) or a handle
on the physical transaction `txId`.  `bound` records the context the
handle was bound to by `WithContext` (contexts are observed through
their underlying base id, since the carrier delegates all context
methods to its wrapped context).  `errF` is the handle's `Error` field;
`disableNested` its `DisableNestedTransaction` flag. -/
structure GormDB where
  txId : Option Nat
  bound : Option Nat
  errF : Option Err
  disableNested : Bool
deriving DecidableEq, Repr

mutual
/-- A Go `context.Context` reaching this library: either a plain base
context or a transaction carrier (which is itself a context). -/
inductive Context where
  | base (id : Nat)
  | txCtx (c : transactionContext)

/-- The carrier `transactionContext`: the wrapped user context, the
driver transaction handle (or `none` for a nil `tx`), and the enclosing
carrier (or `none` for a nil `parent`). -/
inductive transactionContext where
  | mk (ctx : Context) (tx : Option GormDB) (parent : Option transactionContext)
end

mutual
/-- The id of the base context a context ultimately delegates to
(`transactionContext` forwards `Deadline`/`Done`/`Err`/`Value` to its
wrapped `ctx`). -/
def Context.baseId : Context → Nat
  | Context.base i => i
  | Context.txCtx c => c.baseIdOf

def transactionContext.baseIdOf : transactionContext → Nat
  | transactionContext.mk ctx _ _ => ctx.baseId
end

def transactionContext.ctx : transactionContext → Context
  | transactionContext.mk c _ _ => c

def transactionContext.tx : transactionContext → Option GormDB
  | transactionContext.mk _ t _ => t

def transactionContext.parent : transactionContext → Option transactionContext
  | transactionContext.mk _ _ p => p

/-- `(c *transactionContext) IsRoot()`: the parent pointer is nil. -/
def transactionContext.IsRoot (c : transactionContext) : Bool :=
  c.parent.isNone

/-- `(c *transactionContext) InTransaction()`: the handle exists and its
connection pool is a `gorm.TxCommitter`, i.e. the handle is a
transaction handle.  gorm never swaps the connection pool out of a
transaction handle, so this stays true after COMMIT or ROLLBACK. -/
def transactionContext.InTransaction (c : transactionContext) : Bool :=
  match c.tx with
  | none => false
  | some db => db.txId.isSome

/-- `(c *transactionContext) TxError()`: the handle's `Error` field, or
nil when there is no handle. -/
def transactionContext.TxError (c : transactionContext) : Option Err :=
  match c.tx with
  | none => none
  | some db => db.errF

/-- `gorm.DB.WithContext`: a view of the same handle bound to `ctx`. -/
def GormDB.WithContext (db : GormDB) (ctx : Context) : GormDB :=
  { db with bound := some ctx.baseId }

/-- `(c *transactionContext) Session()`: a child carrier sharing the
transaction handle (rebound to the wrapped context) with `parent`
pointing back at `c`. -/
def transactionContext.Session (c : transactionContext) : transactionContext :=
  transactionContext.mk c.ctx (c.tx.map (fun db => db.WithContext c.ctx)) (some c)

/-- `(c *transactionContext) Rollback()`: no-op unless in transaction
and root; otherwise issues the driver ROLLBACK. -/
def transactionContext.Rollback (c : transactionContext) (s : DriverState) : DriverState :=
  if c.InTransaction && c.IsRoot then
    match c.tx with
    | some db =>
      match db.txId with
      | some t => { s with trace := s.trace ++ [DriverOp.rollback t] }
      | none => s
    | none => s
  else s

/-- `(c *transactionContext) Commit()`: `ErrCommitWithoutTransaction`
when not in transaction; the driver COMMIT result when root; success
without touching the driver otherwise. -/
def transactionContext.Commit (c : transactionContext) (s : DriverState) :
    Option Err × DriverState :=
  if c.InTransaction then
    if c.IsRoot then
      match c.tx with
      | some db =>
        match db.txId with
        | some t => (s.commitErr t, { s with trace := s.trace ++ [DriverOp.commit t] })
        | none => (none, s)
      | none => (none, s)
    else (none, s)
  else (some Err.CommitWithoutTransaction, s)

/-- The `TransactionPropagation` constants. -/
inductive TransactionPropagation where
  | PropagationRequired
  | PropagationSupports
  | PropagationMandatory
  | PropagationRequiresNew
  | PropagationNotSupported
  | PropagationNested
  | PropagationNever
deriving DecidableEq, Repr

/-- `defaultPropagation()`. -/
def defaultPropagation : TransactionPropagation :=
  TransactionPropagation.PropagationRequired

/-- `GlobalCachedDBFactory` of `conn.go`: holds the process-cached pool
handle. -/
structure DBFactory where
  origin : GormDB

/-- `GlobalCachedDBFactory.GetDB(ctx)`: the cached handle bound to
`ctx` by `WithContext`. -/
def DBFactory.GetDB (f : DBFactory) (ctx : Context) : GormDB :=
  f.origin.WithContext ctx

/-- `GlobalCachedDBFactory.GetOriginDB()`: the raw cached handle. -/
def DBFactory.GetOriginDB (f : DBFactory) : GormDB :=
  f.origin

/-- `(m *transactionManager) getPureDB(ctx)`: delegates to the
factory's `GetDB`. -/
def getPureDB (f : DBFactory) (ctx : Context) : GormDB :=
  f.GetDB ctx

/-- `(m *transactionManager) GetDB(ctx)`: if `ctx` is a carrier whose
`tx` is non-nil, that `tx`; otherwise a pure context-bound handle.  The
test is `txCtx.tx != nil` — there is no liveness check. -/
def managerGetDB (f : DBFactory) (ctx : Context) : GormDB :=
  match ctx with
  | Context.txCtx c =>
    match c.tx with
    | some db => db
    | none => getPureDB f ctx
  | Context.base i => getPureDB f (Context.base i)

/-- `gorm.DB.Begin()`: ask the driver for a fresh physical transaction.
On success the BEGIN takes effect (trace, fresh id consumed) and the
returned handle is a transaction handle with a clear `Error` field; on
failure the driver state is unchanged and the returned handle is not a
transaction handle but carries the begin error in its `Error` field
(the engine reads it through `TxError`). -/
def GormDB.Begin (db : GormDB) (s : DriverState) : GormDB × DriverState :=
  match s.beginErr s.nextTx with
  | none =>
    ({ txId := some s.nextTx, bound := db.bound, errF := none,
       disableNested := db.disableNested },
     { s with nextTx := s.nextTx + 1, trace := s.trace ++ [DriverOp.begin s.nextTx] })
  | some e =>
    ({ txId := none, bound := db.bound, errF := some e,
       disableNested := db.disableNested }, s)

/-- The result of one invocation of a business function: nil return,
error return, or an unwinding fault (Go panic). -/
inductive BizResult where
  | ok
  | err (e : Err)
  | fault (p : Nat)
deriving DecidableEq, Repr

/-- A business function: receives the context (a carrier on the joining
and root paths, the pure context on the non-transactional ones) and a
handle, issues driver operations (DML, nested frames) and finishes with
a `BizResult`. -/
abbrev BizFn := Context → GormDB → BizResult × List DriverOp

/-- The outcome of one propagation frame: a normal return carrying an
optional error, or a propagating unwinding fault. -/
inductive Outcome where
  | ret (e : Option Err)
  | fault (p : Nat)
deriving DecidableEq, Repr

/-- The ambient check the engine methods perform inline:
`txCtx, ok := ctx.(*transactionContext); ok && txCtx.InTransaction()`.
Returns the carrier together with its handle and physical transaction
id when the check passes. -/
def ambientTransaction : Context → Option (transactionContext × GormDB × Nat)
  | Context.base _ => none
  | Context.txCtx c =>
    match c.tx with
    | none => none
    | some db =>
      match db.txId with
      | none => none
      | some t => some (c, db, t)

/-- The unwrap performed by `withRequiresNewPropagation` and
`withNotSupportedPropagation`: `txCtx.Ctx()` when `ctx` is a carrier,
`ctx` itself otherwise. -/
def pureCtxOf : Context → Context
  | Context.txCtx c => c.ctx
  | Context.base i => Context.base i

/-- The joining shape shared by `withRequiredPropagation`,
`withSupportsPropagation`, `withMandatoryPropagation` and the
savepoint-disabled branch of `withNestedPropagation`:
`bizFn(txCtx.Session(), txCtx.tx)` with no interception — the returned
error or the fault propagates and no driver operation is issued. -/
def runJoin (c : transactionContext) (db : GormDB) (bizFn : BizFn)
    (s : DriverState) : Outcome × DriverState :=
  let br := bizFn (Context.txCtx c.Session) db
  let s1 := { s with trace := s.trace ++ br.2 }
  match br.1 with
  | BizResult.ok => (Outcome.ret none, s1)
  | BizResult.err e => (Outcome.ret (some e), s1)
  | BizResult.fault p => (Outcome.fault p, s1)

/-- The non-transactional shape of `withSupportsPropagation` and
`withNeverPropagation` without a live ambient:
`bizFn(ctx, m.getPureDB(ctx))` — no BEGIN / COMMIT / ROLLBACK. -/
def runPlain (f : DBFactory) (ctx : Context) (bizFn : BizFn)
    (s : DriverState) : Outcome × DriverState :=
  let br := bizFn ctx (getPureDB f ctx)
  let s1 := { s with trace := s.trace ++ br.2 }
  match br.1 with
  | BizResult.ok => (Outcome.ret none, s1)
  | BizResult.err e => (Outcome.ret (some e), s1)
  | BizResult.fault p => (Outcome.fault p, s1)

/-- The body shared by the root-transaction paths of
`withRequiredPropagation` and `withRequiresNewPropagation`, after the
carrier `txCtx` holds the handle `db.Begin()` returned: check
`txCtx.TxError()` (a begin failure skips `bizFn` and surfaces the
driver error); otherwise `bizFn(txCtx, txCtx.tx)`; on nil error
`txCtx.Commit()`; the deferred cleanup calls `txCtx.Rollback()`
whenever the frame panicked or the error — including a commit error —
is non-nil. -/
def finishRootFrame (txCtx : transactionContext) (txdb : GormDB)
    (bizFn : BizFn) (s : DriverState) : Outcome × DriverState :=
  match txdb.errF with
  | some e => (Outcome.ret (some e), txCtx.Rollback s)
  | none =>
    let br := bizFn (Context.txCtx txCtx) txdb
    let s2 := { s with trace := s.trace ++ br.2 }
    match br.1 with
    | BizResult.ok =>
      let cr := txCtx.Commit s2
      match cr.1 with
      | none => (Outcome.ret none, cr.2)
      | some ce => (Outcome.ret (some ce), txCtx.Rollback cr.2)
    | BizResult.err e => (Outcome.ret (some e), txCtx.Rollback s2)
    | BizResult.fault p => (Outcome.fault p, txCtx.Rollback s2)

/-- `withRequiredPropagation`: with a live ambient, join; otherwise
obtain a context-bound handle via `getPureDB(ctx)` and `Begin` it — if
`ctx` was not a carrier a fresh root carrier is constructed, but if it
was a (not-in-transaction) carrier that same carrier is re-used with
its `tx` field overwritten by the fresh transaction (Go:
`txCtx.tx = db.Begin()`), keeping its `ctx` and `parent` fields — then
run the root-frame body. -/
def withRequiredPropagation (f : DBFactory) (ctx : Context) (bizFn : BizFn)
    (s : DriverState) : Outcome × DriverState :=
  match ambientTransaction ctx with
  | some cdt => runJoin cdt.1 cdt.2.1 bizFn s
  | none =>
    let db := getPureDB f ctx
    let bs := db.Begin s
    let txCtx :=
      match ctx with
      | Context.txCtx c => transactionContext.mk c.ctx (some bs.1) c.parent
      | Context.base i => transactionContext.mk (Context.base i) (some bs.1) none
    finishRootFrame txCtx bs.1 bizFn bs.2

/-- `withRequiresNewPropagation`: always unwraps to the pure context,
obtains a handle bound to it, `Begin`s, and builds a fresh carrier
whose `ctx` field is the incoming context (possibly the outer carrier)
and whose `parent` is nil, then runs the root-frame body. -/
def withRequiresNewPropagation (f : DBFactory) (ctx : Context) (bizFn : BizFn)
    (s : DriverState) : Outcome × DriverState :=
  let db := getPureDB f (pureCtxOf ctx)
  let bs := db.Begin s
  let txCtx := transactionContext.mk ctx (some bs.1) none
  finishRootFrame txCtx bs.1 bizFn bs.2

/-- `withSupportsPropagation`: join with a live ambient, otherwise run
non-transactionally on the given context. -/
def withSupportsPropagation (f : DBFactory) (ctx : Context) (bizFn : BizFn)
    (s : DriverState) : Outcome × DriverState :=
  match ambientTransaction ctx with
  | some cdt => runJoin cdt.1 cdt.2.1 bizFn s
  | none => runPlain f ctx bizFn s

/-- `withMandatoryPropagation`: join with a live ambient, otherwise
fail with `ErrMandatoryPropWithoutTransaction` before `bizFn` runs. -/
def withMandatoryPropagation (ctx : Context) (bizFn : BizFn)
    (s : DriverState) : Outcome × DriverState :=
  match ambientTransaction ctx with
  | some cdt => runJoin cdt.1 cdt.2.1 bizFn s
  | none => (Outcome.ret (some Err.MandatoryPropWithoutTransaction), s)

/-- `withNeverPropagation`: fail with `ErrNeverPropInTransaction`
before `bizFn` runs when the ambient is live, otherwise run
non-transactionally on the given context. -/
def withNeverPropagation (f : DBFactory) (ctx : Context) (bizFn : BizFn)
    (s : DriverState) : Outcome × DriverState :=
  match ambientTransaction ctx with
  | some _ => (Outcome.ret (some Err.NeverPropInTransaction), s)
  | none => runPlain f ctx bizFn s

/-- `withNotSupportedPropagation`: unconditionally unwraps to the pure
context and runs `bizFn(pureCtx, m.getPureDB(pureCtx))` — no carrier is
constructed and no driver operation is issued by the frame. -/
def withNotSupportedPropagation (f : DBFactory) (ctx : Context) (bizFn : BizFn)
    (s : DriverState) : Outcome × DriverState :=
  let pc := pureCtxOf ctx
  let br := bizFn pc (getPureDB f pc)
  let s1 := { s with trace := s.trace ++ br.2 }
  match br.1 with
  | BizResult.ok => (Outcome.ret none, s1)
  | BizResult.err e => (Outcome.ret (some e), s1)
  | BizResult.fault p => (Outcome.fault p, s1)

/-- `withNestedPropagation`: with a live ambient, consult the handle's
`DisableNestedTransaction` flag; when disabled, degrade to the join
shape.  Otherwise issue `SavePoint("sp%p")` (named `fid` here): if the
savepoint fails, `bizFn` is skipped and the deferred cleanup still
issues `RollbackTo` (the error is non-nil); if it succeeds, run
`bizFn(txCtx.Session(), txCtx.TxDB())` and on returned error or fault
issue `RollbackTo` and propagate, on success leave the savepoint in
place.  With no live ambient, delegate to `withRequiredPropagation`. -/
def withNestedPropagation (f : DBFactory) (fid : Nat) (ctx : Context)
    (bizFn : BizFn) (s : DriverState) : Outcome × DriverState :=
  match ambientTransaction ctx with
  | some cdt =>
    let c := cdt.1
    let db := cdt.2.1
    let t := cdt.2.2
    if db.disableNested then runJoin c db bizFn s
    else
      match s.savepointErr t fid with
      | some e =>
        (Outcome.ret (some e), { s with trace := s.trace ++ [DriverOp.rollbackTo t fid] })
      | none =>
        let s1 := { s with trace := s.trace ++ [DriverOp.savepoint t fid] }
        let br := bizFn (Context.txCtx c.Session) db
        let s2 := { s1 with trace := s1.trace ++ br.2 }
        match br.1 with
        | BizResult.ok => (Outcome.ret none, s2)
        | BizResult.err e =>
          (Outcome.ret (some e), { s2 with trace := s2.trace ++ [DriverOp.rollbackTo t fid] })
        | BizResult.fault p =>
          (Outcome.fault p, { s2 with trace := s2.trace ++ [DriverOp.rollbackTo t fid] })
  | none => withRequiredPropagation f ctx bizFn s

/-- The switch of `transactionManager.Transaction`, dispatching on the
declared mode.  `fid` stands for the frame's identity (the `%p` of
`bizFn`), used only for savepoint naming. -/
def runTransaction (f : DBFactory) (fid : Nat) (ctx : Context) (bizFn : BizFn)
    (prop : TransactionPropagation) (s : DriverState) : Outcome × DriverState :=
  match prop with
  | TransactionPropagation.PropagationRequired => withRequiredPropagation f ctx bizFn s
  | TransactionPropagation.PropagationSupports => withSupportsPropagation f ctx bizFn s
  | TransactionPropagation.PropagationMandatory => withMandatoryPropagation ctx bizFn s
  | TransactionPropagation.PropagationRequiresNew => withRequiresNewPropagation f ctx bizFn s
  | TransactionPropagation.PropagationNotSupported => withNotSupportedPropagation f ctx bizFn s
  | TransactionPropagation.PropagationNested => withNestedPropagation f fid ctx bizFn s
  | TransactionPropagation.PropagationNever => withNeverPropagation f ctx bizFn s

/-- `TransactionManager.Transaction(ctx, bizFn, propagations...)`:
`propagations[0]` or the default mode. -/
def Transaction (f : DBFactory) (fid : Nat) (ctx : Context) (bizFn : BizFn)
    (propagations : List TransactionPropagation) (s : DriverState) :
    Outcome × DriverState :=
  runTransaction f fid ctx bizFn (propagations.headD defaultPropagation) s

/-- `ConnConfig`. -/
structure ConnConfig where
  Host : String
  Port : Nat
  User : String
  Password : String
  Database : String
  MaxIdleConns : Nat
  MaxOpenConns : Nat
  ConnMaxLifetimeSec : Nat
  DbLog : Bool
  Dialect : String
deriving DecidableEq, Repr

/-- The `DefaultConfig` value. -/
def DefaultConfig : ConnConfig :=
  { Host := "", Port := 5432, User := "", Password := "", Database := "",
    MaxIdleConns := 5, MaxOpenConns := 20, ConnMaxLifetimeSec := 3600,
    DbLog := false, Dialect := "mysql" }

/-- `PatchDefaultConfig`: each zero-valued numeric field and the empty
dialect are replaced by the corresponding `DefaultConfig` field, then a
still-empty database name panics (`Except.error` models the panic, on
which the patched value is discarded). -/
def PatchDefaultConfig (c : ConnConfig) : Except Err ConnConfig :=
  let patched :=
    { c with
      Port := if c.Port = 0 then DefaultConfig.Port else c.Port
      MaxIdleConns := if c.MaxIdleConns = 0 then DefaultConfig.MaxIdleConns else c.MaxIdleConns
      MaxOpenConns := if c.MaxOpenConns = 0 then DefaultConfig.MaxOpenConns else c.MaxOpenConns
      ConnMaxLifetimeSec :=
        if c.ConnMaxLifetimeSec = 0 then DefaultConfig.ConnMaxLifetimeSec
        else c.ConnMaxLifetimeSec
      Dialect := if c.Dialect = "" then DefaultConfig.Dialect else c.Dialect }
  if patched.Database = "" then Except.error Err.EmptyDatabase
  else Except.ok patched

/-! ## Sample inputs used by the evaluation witnesses and counterexamples -/

def sampleFactory : DBFactory :=
  { origin := { txId := none, bound := none, errF := none, disableNested := false } }

def sampleState : DriverState :=
  { nextTx := 1, trace := [], beginErr := fun _ => none,
    savepointErr := fun _ _ => none, commitErr := fun _ => none }

def sampleBiz : BizFn := fun _ _ => (BizResult.ok, [])

def sampleTxHandle : GormDB :=
  { txId := some 0, bound := none, errF := none, disableNested := false }

def sampleRoot : transactionContext :=
  transactionContext.mk (Context.base 0) (some sampleTxHandle) none

def sampleLiveCtx : Context := Context.txCtx sampleRoot

/-! ## Claims -/

/-- C7: with no live ambient transaction, a `Nested` frame is equivalent
to a `Required` frame on the same inputs — `withNestedPropagation`
delegates to `withRequiredPropagation` — so the same driver operations
are issued and the same result is returned. -/
theorem nested_noAmbient_behaves_as_required (f : DBFactory) (fid : Nat)
    (ctx : Context) (bizFn : BizFn) (s : DriverState)
    (h : ambientTransaction ctx = none) :
    runTransaction f fid ctx bizFn TransactionPropagation.PropagationNested s =
      runTransaction f fid ctx bizFn TransactionPropagation.PropagationRequired s := by
  simp only [runTransaction, withNestedPropagation, h]

/-- Witness for C7 at a concrete plain context. -/
theorem nested_noAmbient_behaves_as_required_witness :
    ambientTransaction (Context.base 0) = none ∧
    runTransaction sampleFactory 0 (Context.base 0) sampleBiz
        TransactionPropagation.PropagationNested sampleState =
      runTransaction sampleFactory 0 (Context.base 0) sampleBiz
        TransactionPropagation.PropagationRequired sampleState :=
  ⟨rfl, nested_noAmbient_behaves_as_required sampleFactory 0 (Context.base 0)
    sampleBiz sampleState rfl⟩

/-- C4: `Mandatory` without a live ambient transaction returns
`MandatoryPropWithoutTransaction` and `Never` with a live ambient
transaction returns `NeverPropInTransaction`; in both cases the
business function is not invoked (the outcome is the same for every
`bizFn` and the driver state is untouched). -/
theorem propagation_violation_spec (f : DBFactory) (fid : Nat) (ctx : Context)
    (s : DriverState) :
    (ambientTransaction ctx = none →
      ∀ bizFn : BizFn,
        runTransaction f fid ctx bizFn TransactionPropagation.PropagationMandatory s =
          (Outcome.ret (some Err.MandatoryPropWithoutTransaction), s)) ∧
    (∀ c db t, ambientTransaction ctx = some (c, db, t) →
      ∀ bizFn : BizFn,
        runTransaction f fid ctx bizFn TransactionPropagation.PropagationNever s =
          (Outcome.ret (some Err.NeverPropInTransaction), s)) := by
  constructor
  · intro h bizFn
    simp only [runTransaction, withMandatoryPropagation, h]
  · intro c db t h bizFn
    simp only [runTransaction, withNeverPropagation, h]

/-- Witness for C4: `Mandatory` on a plain context and `Never` on a
carrier with a live transaction. -/
theorem propagation_violation_spec_witness :
    (ambientTransaction (Context.base 0) = none ∧
      runTransaction sampleFactory 0 (Context.base 0) sampleBiz
          TransactionPropagation.PropagationMandatory sampleState =
        (Outcome.ret (some Err.MandatoryPropWithoutTransaction), sampleState)) ∧
    (ambientTransaction sampleLiveCtx = some (sampleRoot, sampleTxHandle, 0) ∧
      runTransaction sampleFactory 0 sampleLiveCtx sampleBiz
          TransactionPropagation.PropagationNever sampleState =
        (Outcome.ret (some Err.NeverPropInTransaction), sampleState)) :=
  ⟨⟨rfl, (propagation_violation_spec sampleFactory 0 (Context.base 0) sampleState).1
      rfl sampleBiz⟩,
   ⟨rfl, (propagation_violation_spec sampleFactory 0 sampleLiveCtx sampleState).2
      sampleRoot sampleTxHandle 0 rfl sampleBiz⟩⟩

/-- C8 (amended): `transactionManager.GetDB(ctx)` returns the carrier's
`tx` exactly when `ctx` is a carrier whose `tx` is non-nil — the code
tests `txCtx.tx != nil`, with no liveness check — and in every other
case returns a fresh pool handle bound to `ctx`. -/
theorem managerGetDB_spec (f : DBFactory) (ctx : Context) :
    (∀ c db, ctx = Context.txCtx c → c.tx = some db → managerGetDB f ctx = db) ∧
    ((∀ c, ctx = Context.txCtx c → c.tx = none) →
      managerGetDB f ctx = { txId := f.origin.txId, bound := some ctx.baseId,
                             errF := f.origin.errF,
                             disableNested := f.origin.disableNested }) := by
  constructor
  · rintro c db rfl htx
    simp [managerGetDB, htx]
  · intro h
    match ctx with
    | Context.base i =>
      simp [managerGetDB, getPureDB, DBFactory.GetDB, GormDB.WithContext]
    | Context.txCtx c =>
      have hdb := h c rfl
      simp [managerGetDB, hdb, getPureDB, DBFactory.GetDB, GormDB.WithContext]

/-- The handle of a carrier whose stored `tx` is not a live transaction
handle, and that carrier as a context; used to separate the code's
`tx != nil` test from the claim's liveness test. -/
def deadTxHandle : GormDB :=
  { txId := none, bound := none, errF := none, disableNested := false }

def deadTxCarrierCtx : Context :=
  Context.txCtx (transactionContext.mk (Context.base 0) (some deadTxHandle) none)

/-- Counterexample for C8 as originally stated: on a carrier holding a
non-nil but non-live `tx`, `GetDB` returns that stored handle, which is
not the fresh pool handle bound to the context the claim requires. -/
theorem managerGetDB_spec_cx :
    managerGetDB sampleFactory deadTxCarrierCtx = deadTxHandle ∧
    deadTxHandle ≠ DBFactory.GetDB sampleFactory deadTxCarrierCtx :=
  ⟨rfl, by decide⟩

/-- Witness for C8: a live-tx carrier yields its stored `tx`; a plain
context yields the pool handle bound to that context. -/
theorem managerGetDB_spec_witness :
    managerGetDB sampleFactory sampleLiveCtx = sampleTxHandle ∧
    managerGetDB sampleFactory (Context.base 7) =
      { txId := none, bound := some 7, errF := none, disableNested := false } :=
  ⟨(managerGetDB_spec sampleFactory sampleLiveCtx).1 sampleRoot sampleTxHandle rfl rfl,
   (managerGetDB_spec sampleFactory (Context.base 7)).2 (fun _ hc => by cases hc)⟩

/-- C9: configuration defaulting fills every unset field with its
default (port 5432, maxIdleConns 5, maxOpenConns 20,
connMaxLifetimeSec 3600, dialect "mysql"), leaves every already-set
field unchanged, and an empty database name is a fatal configuration
error (the `panic`, modelled as `Except.error`). -/
theorem patchDefaultConfig_spec (c : ConnConfig) :
    (c.Database = "" → PatchDefaultConfig c = Except.error Err.EmptyDatabase) ∧
    (c.Database ≠ "" → ∃ r, PatchDefaultConfig c = Except.ok r ∧
      r.Host = c.Host ∧ r.User = c.User ∧ r.Password = c.Password ∧
      r.Database = c.Database ∧ r.DbLog = c.DbLog ∧
      (c.Port = 0 → r.Port = 5432) ∧ (c.Port ≠ 0 → r.Port = c.Port) ∧
      (c.MaxIdleConns = 0 → r.MaxIdleConns = 5) ∧
      (c.MaxIdleConns ≠ 0 → r.MaxIdleConns = c.MaxIdleConns) ∧
      (c.MaxOpenConns = 0 → r.MaxOpenConns = 20) ∧
      (c.MaxOpenConns ≠ 0 → r.MaxOpenConns = c.MaxOpenConns) ∧
      (c.ConnMaxLifetimeSec = 0 → r.ConnMaxLifetimeSec = 3600) ∧
      (c.ConnMaxLifetimeSec ≠ 0 → r.ConnMaxLifetimeSec = c.ConnMaxLifetimeSec) ∧
      (c.Dialect = "" → r.Dialect = "mysql") ∧
      (c.Dialect ≠ "" → r.Dialect = c.Dialect)) := by
  constructor
  · intro h
    simp [PatchDefaultConfig, h]
  · intro h
    refine ⟨{ c with
        Port := if c.Port = 0 then DefaultConfig.Port else c.Port
        MaxIdleConns := if c.MaxIdleConns = 0 then DefaultConfig.MaxIdleConns
          else c.MaxIdleConns
        MaxOpenConns := if c.MaxOpenConns = 0 then DefaultConfig.MaxOpenConns
          else c.MaxOpenConns
        ConnMaxLifetimeSec :=
          if c.ConnMaxLifetimeSec = 0 then DefaultConfig.ConnMaxLifetimeSec
          else c.ConnMaxLifetimeSec
        Dialect := if c.Dialect = "" then DefaultConfig.Dialect else c.Dialect },
      by simp [PatchDefaultConfig, h], rfl, rfl, rfl, rfl, rfl,
      ?_, ?_, ?_, ?_, ?_, ?_, ?_, ?_, ?_, ?_⟩ <;> intro h0 <;>
      first
        | (rw [if_pos h0]; rfl)
        | rw [if_neg h0]

/-- Witness for C9: a config with only host/user/password/database set
receives every default; the empty-database config fails. -/
theorem patchDefaultConfig_spec_witness :
    (PatchDefaultConfig
        { Host := "h", Port := 0, User := "u", Password := "p", Database := "",
          MaxIdleConns := 0, MaxOpenConns := 0, ConnMaxLifetimeSec := 0,
          DbLog := false, Dialect := "" } = Except.error Err.EmptyDatabase) ∧
    (∃ r, PatchDefaultConfig
        { Host := "h", Port := 0, User := "u", Password := "p", Database := "d",
          MaxIdleConns := 0, MaxOpenConns := 0, ConnMaxLifetimeSec := 0,
          DbLog := false, Dialect := "" } = Except.ok r ∧
      r.Host = "h" ∧ r.User = "u" ∧ r.Password = "p" ∧
      r.Database = "d" ∧ r.DbLog = false ∧
      ((0 : Nat) = 0 → r.Port = 5432) ∧ ((0 : Nat) ≠ 0 → r.Port = 0) ∧
      ((0 : Nat) = 0 → r.MaxIdleConns = 5) ∧ ((0 : Nat) ≠ 0 → r.MaxIdleConns = 0) ∧
      ((0 : Nat) = 0 → r.MaxOpenConns = 20) ∧ ((0 : Nat) ≠ 0 → r.MaxOpenConns = 0) ∧
      ((0 : Nat) = 0 → r.ConnMaxLifetimeSec = 3600) ∧
      ((0 : Nat) ≠ 0 → r.ConnMaxLifetimeSec = 0) ∧
      (("" : String) = "" → r.Dialect = "mysql") ∧
      (("" : String) ≠ "" → r.Dialect = "")) :=
  ⟨(patchDefaultConfig_spec
      { Host := "h", Port := 0, User := "u", Password := "p", Database := "",
        MaxIdleConns := 0, MaxOpenConns := 0, ConnMaxLifetimeSec := 0,
        DbLog := false, Dialect := "" }).1 rfl,
   (patchDefaultConfig_spec
      { Host := "h", Port := 0, User := "u", Password := "p", Database := "d",
        MaxIdleConns := 0, MaxOpenConns := 0, ConnMaxLifetimeSec := 0,
        DbLog := false, Dialect := "" }).2 (by decide)⟩

/-- C1 (amended): a `Required` frame on a context that is not a carrier,
when BEGIN reports no driver error, obtains a fresh context-bound
handle, issues BEGIN, and invokes `bizFn` with a fresh root carrier
(root, in transaction); if `bizFn` returns an error or unwinds with a
fault, the deferred cleanup issues ROLLBACK on that transaction and the
error/fault propagates; otherwise COMMIT is issued and its result
returned — the cleanup additionally issuing ROLLBACK when that commit
result is an error. -/
theorem required_noAmbient_spec (f : DBFactory) (fid b : Nat) (bizFn : BizFn)
    (s : DriverState) (r : BizResult) (ops : List DriverOp)
    (hbe : s.beginErr s.nextTx = none)
    (hbr : bizFn (Context.txCtx (transactionContext.mk (Context.base b)
        (some { txId := some s.nextTx, bound := some b, errF := none,
                disableNested := f.origin.disableNested }) none))
        { txId := some s.nextTx, bound := some b, errF := none,
          disableNested := f.origin.disableNested } = (r, ops)) :
    (transactionContext.mk (Context.base b)
        (some { txId := some s.nextTx, bound := some b, errF := none,
                disableNested := f.origin.disableNested }) none).IsRoot = true ∧
    (transactionContext.mk (Context.base b)
        (some { txId := some s.nextTx, bound := some b, errF := none,
                disableNested := f.origin.disableNested }) none).InTransaction = true ∧
    (r = BizResult.ok →
      runTransaction f fid (Context.base b) bizFn
          TransactionPropagation.PropagationRequired s =
        (Outcome.ret (s.commitErr s.nextTx),
         { s with nextTx := s.nextTx + 1,
                  trace := s.trace ++ [DriverOp.begin s.nextTx] ++ ops
                    ++ [DriverOp.commit s.nextTx]
                    ++ (match s.commitErr s.nextTx with
                        | none => []
                        | some _ => [DriverOp.rollback s.nextTx]) })) ∧
    (∀ e, r = BizResult.err e →
      runTransaction f fid (Context.base b) bizFn
          TransactionPropagation.PropagationRequired s =
        (Outcome.ret (some e),
         { s with nextTx := s.nextTx + 1,
                  trace := s.trace ++ [DriverOp.begin s.nextTx] ++ ops
                    ++ [DriverOp.rollback s.nextTx] })) ∧
    (∀ p, r = BizResult.fault p →
      runTransaction f fid (Context.base b) bizFn
          TransactionPropagation.PropagationRequired s =
        (Outcome.fault p,
         { s with nextTx := s.nextTx + 1,
                  trace := s.trace ++ [DriverOp.begin s.nextTx] ++ ops
                    ++ [DriverOp.rollback s.nextTx] })) := by
  refine ⟨rfl, rfl, ?_, ?_, ?_⟩
  · rintro rfl
    rcases hc : s.commitErr s.nextTx with _ | ce <;>
      simp [runTransaction, withRequiredPropagation, ambientTransaction, getPureDB,
        DBFactory.GetDB, GormDB.WithContext, Context.baseId, GormDB.Begin, hbe,
        finishRootFrame, hbr, transactionContext.Commit, transactionContext.Rollback,
        transactionContext.InTransaction, transactionContext.IsRoot,
        transactionContext.tx, transactionContext.parent, hc]
  · rintro e rfl
    simp [runTransaction, withRequiredPropagation, ambientTransaction, getPureDB,
      DBFactory.GetDB, GormDB.WithContext, Context.baseId, GormDB.Begin, hbe,
      finishRootFrame, hbr, transactionContext.Rollback,
      transactionContext.InTransaction, transactionContext.IsRoot,
      transactionContext.tx, transactionContext.parent]
  · rintro p rfl
    simp [runTransaction, withRequiredPropagation, ambientTransaction, getPureDB,
      DBFactory.GetDB, GormDB.WithContext, Context.baseId, GormDB.Begin, hbe,
      finishRootFrame, hbr, transactionContext.Rollback,
      transactionContext.InTransaction, transactionContext.IsRoot,
      transactionContext.tx, transactionContext.parent]

/-- A carrier holding no live transaction but a non-nil parent, and a
business function that issues a marker operation; used to exhibit the
paths on which the original C1 fails. -/
def suspendedParent : transactionContext :=
  transactionContext.mk (Context.base 0) none none

def deadSessionCtx : Context :=
  Context.txCtx (transactionContext.mk (Context.base 0) none (some suspendedParent))

def markerBiz : BizFn := fun _ _ => (BizResult.ok, [DriverOp.savepoint 99 99])

def beginFailState : DriverState :=
  { sampleState with beginErr := fun _ => some (Err.driver 3) }

/-- Counterexample for C1 as originally stated: (a) on a carrier
context with no live transaction but a non-nil parent — a context that
"does not carry a live ambient transaction" — the engine re-uses that
carrier (which is not root), so a nil-returning `bizFn` ends the frame
with no COMMIT at all; (b) when BEGIN fails, `bizFn` is never invoked:
its marker operation is absent from the trace. -/
theorem required_noAmbient_spec_cx :
    (runTransaction sampleFactory 0 deadSessionCtx sampleBiz
        TransactionPropagation.PropagationRequired sampleState =
      (Outcome.ret none,
       { nextTx := 2, trace := [DriverOp.begin 1], beginErr := fun _ => none,
         savepointErr := fun _ _ => none, commitErr := fun _ => none }) ∧
     DriverOp.commit 1 ∉ [DriverOp.begin 1]) ∧
    (runTransaction sampleFactory 0 (Context.base 0) markerBiz
        TransactionPropagation.PropagationRequired beginFailState =
      (Outcome.ret (some (Err.driver 3)), beginFailState) ∧
     DriverOp.savepoint 99 99 ∉ beginFailState.trace) :=
  ⟨⟨rfl, by decide⟩, ⟨rfl, by decide⟩⟩

/-- Witness for C1: a nil-returning `bizFn` on a plain context yields
BEGIN then COMMIT, no rollback, and the (successful) commit result. -/
theorem required_noAmbient_spec_witness :
    sampleState.beginErr 1 = none ∧
    runTransaction sampleFactory 0 (Context.base 0) sampleBiz
        TransactionPropagation.PropagationRequired sampleState =
      (Outcome.ret none,
       { nextTx := 2, trace := [DriverOp.begin 1, DriverOp.commit 1],
         beginErr := fun _ => none, savepointErr := fun _ _ => none,
         commitErr := fun _ => none }) :=
  ⟨rfl, (required_noAmbient_spec sampleFactory 0 0 sampleBiz sampleState
      BizResult.ok [] rfl rfl).2.2.1 rfl⟩

/-- C2: a `Nested` frame with a live ambient transaction (and nested
transactions not disabled on the handle) issues a SAVEPOINT named from
the frame's identity `fid` on the ambient transaction before invoking
`bizFn` with a session carrier; on returned error or unwinding fault it
issues ROLLBACK TO that savepoint and propagates the error or fault
unchanged; on success no rollback-to is issued and the savepoint is
left in place.  When the SAVEPOINT itself fails, `bizFn` is skipped and
the deferred cleanup still issues ROLLBACK TO, surfacing the savepoint
error. -/
theorem nested_live_savepoint_spec (f : DBFactory) (fid : Nat)
    (c : transactionContext) (db : GormDB) (t : Nat) (bizFn : BizFn)
    (s : DriverState) (r : BizResult) (ops : List DriverOp)
    (hd : db.disableNested = false)
    (htx : c.tx = some db) (hid : db.txId = some t)
    (hbr : bizFn (Context.txCtx c.Session) db = (r, ops)) :
    (s.savepointErr t fid = none →
      (r = BizResult.ok →
        runTransaction f fid (Context.txCtx c) bizFn
            TransactionPropagation.PropagationNested s =
          (Outcome.ret none,
           { s with trace := s.trace ++ [DriverOp.savepoint t fid] ++ ops })) ∧
      (∀ e, r = BizResult.err e →
        runTransaction f fid (Context.txCtx c) bizFn
            TransactionPropagation.PropagationNested s =
          (Outcome.ret (some e),
           { s with trace := s.trace ++ [DriverOp.savepoint t fid] ++ ops
               ++ [DriverOp.rollbackTo t fid] })) ∧
      (∀ p, r = BizResult.fault p →
        runTransaction f fid (Context.txCtx c) bizFn
            TransactionPropagation.PropagationNested s =
          (Outcome.fault p,
           { s with trace := s.trace ++ [DriverOp.savepoint t fid] ++ ops
               ++ [DriverOp.rollbackTo t fid] }))) ∧
    (∀ e, s.savepointErr t fid = some e →
      runTransaction f fid (Context.txCtx c) bizFn
          TransactionPropagation.PropagationNested s =
        (Outcome.ret (some e),
         { s with trace := s.trace ++ [DriverOp.rollbackTo t fid] })) := by
  constructor
  · intro hsp
    refine ⟨?_, ?_, ?_⟩
    · rintro rfl
      simp [runTransaction, withNestedPropagation, ambientTransaction, htx, hid,
        hd, hsp, hbr]
    · rintro e rfl
      simp [runTransaction, withNestedPropagation, ambientTransaction, htx, hid,
        hd, hsp, hbr]
    · rintro p rfl
      simp [runTransaction, withNestedPropagation, ambientTransaction, htx, hid,
        hd, hsp, hbr]
  · intro e hsp
    simp [runTransaction, withNestedPropagation, ambientTransaction, htx, hid,
      hd, hsp]

/-- Witness for C2: an error-returning `bizFn` inside a live ambient
transaction sees SAVEPOINT then ROLLBACK TO, and the error is
propagated. -/
theorem nested_live_savepoint_spec_witness :
    sampleState.savepointErr 0 3 = none ∧
    runTransaction sampleFactory 3 sampleLiveCtx
        (fun _ _ => (BizResult.err (Err.biz 5), []))
        TransactionPropagation.PropagationNested sampleState =
      (Outcome.ret (some (Err.biz 5)),
       { nextTx := 1, trace := [DriverOp.savepoint 0 3, DriverOp.rollbackTo 0 3],
         beginErr := fun _ => none, savepointErr := fun _ _ => none,
         commitErr := fun _ => none }) :=
  ⟨rfl, ((nested_live_savepoint_spec sampleFactory 3 sampleRoot sampleTxHandle 0
      (fun _ _ => (BizResult.err (Err.biz 5), [])) sampleState
      (BizResult.err (Err.biz 5)) [] rfl rfl rfl rfl).1 rfl).2.1 (Err.biz 5) rfl⟩

/-- C3 (amended): in a root frame (`Required` on a non-carrier context,
or `RequiresNew` on any context) whose BEGIN succeeded and whose
`bizFn` returns nil, the frame's return value is the commit result — a
commit error replaces the nil `bizFn` return — and on a commit error
the deferred cleanup then fires on the non-nil error and issues a
ROLLBACK on the already-committed transaction (no rollback when the
commit succeeds). -/
theorem commitError_replaces_nil_spec (f : DBFactory) (fid b : Nat)
    (ctx : Context) (bizFn : BizFn) (s : DriverState) (ops : List DriverOp) :
    (s.beginErr s.nextTx = none →
      bizFn (Context.txCtx (transactionContext.mk (Context.base b)
          (some { txId := some s.nextTx, bound := some b, errF := none,
                  disableNested := f.origin.disableNested }) none))
          { txId := some s.nextTx, bound := some b, errF := none,
            disableNested := f.origin.disableNested } = (BizResult.ok, ops) →
      runTransaction f fid (Context.base b) bizFn
          TransactionPropagation.PropagationRequired s =
        (Outcome.ret (s.commitErr s.nextTx),
         { s with nextTx := s.nextTx + 1,
                  trace := s.trace ++ [DriverOp.begin s.nextTx] ++ ops
                    ++ [DriverOp.commit s.nextTx]
                    ++ (match s.commitErr s.nextTx with
                        | none => []
                        | some _ => [DriverOp.rollback s.nextTx]) })) ∧
    (s.beginErr s.nextTx = none →
      bizFn (Context.txCtx (transactionContext.mk ctx
          (some { txId := some s.nextTx, bound := some (pureCtxOf ctx).baseId,
                  errF := none, disableNested := f.origin.disableNested }) none))
          { txId := some s.nextTx, bound := some (pureCtxOf ctx).baseId,
            errF := none, disableNested := f.origin.disableNested }
        = (BizResult.ok, ops) →
      runTransaction f fid ctx bizFn
          TransactionPropagation.PropagationRequiresNew s =
        (Outcome.ret (s.commitErr s.nextTx),
         { s with nextTx := s.nextTx + 1,
                  trace := s.trace ++ [DriverOp.begin s.nextTx] ++ ops
                    ++ [DriverOp.commit s.nextTx]
                    ++ (match s.commitErr s.nextTx with
                        | none => []
                        | some _ => [DriverOp.rollback s.nextTx]) })) := by
  constructor
  · intro hbe hbr
    rcases hc : s.commitErr s.nextTx with _ | ce <;>
      simp [runTransaction, withRequiredPropagation, ambientTransaction, getPureDB,
        DBFactory.GetDB, GormDB.WithContext, Context.baseId, GormDB.Begin, hbe,
        finishRootFrame, hbr, transactionContext.Commit, transactionContext.Rollback,
        transactionContext.InTransaction, transactionContext.IsRoot,
        transactionContext.tx, transactionContext.parent, hc]
  · intro hbe hbr
    rcases hc : s.commitErr s.nextTx with _ | ce <;>
      simp [runTransaction, withRequiresNewPropagation, getPureDB,
        DBFactory.GetDB, GormDB.WithContext, GormDB.Begin, hbe,
        finishRootFrame, hbr, transactionContext.Commit, transactionContext.Rollback,
        transactionContext.InTransaction, transactionContext.IsRoot,
        transactionContext.tx, transactionContext.parent, hc]

/-- A driver whose COMMIT of any transaction fails with `driver 7`. -/
def commitFailState : DriverState :=
  { sampleState with commitErr := fun _ => some (Err.driver 7) }

/-- Counterexample for C3 as originally stated: on a failing COMMIT the
commit error does replace the nil `bizFn` result, but the engine then
issues a ROLLBACK on that transaction — the deferred cleanup fires on
the non-nil error — contradicting "the engine does not issue a ROLLBACK
in response to that commit error". -/
theorem commitError_replaces_nil_spec_cx :
    runTransaction sampleFactory 0 (Context.base 0) sampleBiz
        TransactionPropagation.PropagationRequired commitFailState =
      (Outcome.ret (some (Err.driver 7)),
       { nextTx := 2,
         trace := [DriverOp.begin 1, DriverOp.commit 1, DriverOp.rollback 1],
         beginErr := fun _ => none, savepointErr := fun _ _ => none,
         commitErr := fun _ => some (Err.driver 7) }) ∧
    DriverOp.rollback 1 ∈
      [DriverOp.begin 1, DriverOp.commit 1, DriverOp.rollback 1] :=
  ⟨rfl, by decide⟩

/-- Witness for C3: the failing commit's error `driver 7` replaces the
nil return and the trace ends COMMIT then ROLLBACK. -/
theorem commitError_replaces_nil_spec_witness :
    commitFailState.beginErr 1 = none ∧
    runTransaction sampleFactory 0 (Context.base 0) sampleBiz
        TransactionPropagation.PropagationRequired commitFailState =
      (Outcome.ret (some (Err.driver 7)),
       { nextTx := 2,
         trace := [DriverOp.begin 1, DriverOp.commit 1, DriverOp.rollback 1],
         beginErr := fun _ => none, savepointErr := fun _ _ => none,
         commitErr := fun _ => some (Err.driver 7) }) :=
  ⟨rfl, (commitError_replaces_nil_spec sampleFactory 0 0 (Context.base 0)
      sampleBiz commitFailState []).1 rfl rfl⟩

/-- C5 (amended): a `RequiresNew` frame under a live outer transaction
`t` builds a fresh carrier whose `ctx` field is the incoming
outer-carrier context, whose `parent` is nil, and whose `tx` is a
freshly begun transaction (id `s.nextTx ≠ t`, on a handle bound to the
unwrapped pure context); the engine's own driver operations in the
frame (BEGIN and the finalizing COMMIT / ROLLBACK) target only the
fresh transaction.  A `NotSupported` frame builds no carrier at all:
`bizFn` runs on the unwrapped pure context with a non-transactional
pool handle, and the engine issues no driver operation. -/
theorem requiresNew_notSupported_suspension_spec (f : DBFactory) (fid : Nat)
    (c : transactionContext) (db : GormDB) (t : Nat) (bizFn : BizFn)
    (s : DriverState) (r r2 : BizResult) (ops ops2 : List DriverOp)
    (htx : c.tx = some db) (hid : db.txId = some t)
    (hfresh : t < s.nextTx) (hbe : s.beginErr s.nextTx = none)
    (hpool : f.origin.txId = none) :
    (bizFn (Context.txCtx (transactionContext.mk (Context.txCtx c)
        (some { txId := some s.nextTx, bound := some c.ctx.baseId, errF := none,
                disableNested := f.origin.disableNested }) none))
        { txId := some s.nextTx, bound := some c.ctx.baseId, errF := none,
          disableNested := f.origin.disableNested } = (r, ops) →
      s.nextTx ≠ t ∧
      (transactionContext.mk (Context.txCtx c)
        (some { txId := some s.nextTx, bound := some c.ctx.baseId, errF := none,
                disableNested := f.origin.disableNested }) none).parent = none ∧
      (transactionContext.mk (Context.txCtx c)
        (some { txId := some s.nextTx, bound := some c.ctx.baseId, errF := none,
                disableNested := f.origin.disableNested }) none).ctx
        = Context.txCtx c ∧
      (transactionContext.mk (Context.txCtx c)
        (some { txId := some s.nextTx, bound := some c.ctx.baseId, errF := none,
                disableNested := f.origin.disableNested }) none).tx
        = some { txId := some s.nextTx, bound := some c.ctx.baseId, errF := none,
                 disableNested := f.origin.disableNested } ∧
      ∃ tail,
        (runTransaction f fid (Context.txCtx c) bizFn
            TransactionPropagation.PropagationRequiresNew s).2.trace
          = s.trace ++ [DriverOp.begin s.nextTx] ++ ops ++ tail ∧
        ∀ op ∈ tail,
          op = DriverOp.commit s.nextTx ∨ op = DriverOp.rollback s.nextTx) ∧
    (bizFn c.ctx (getPureDB f c.ctx) = (r2, ops2) →
      (getPureDB f c.ctx).txId = none ∧
      (runTransaction f fid (Context.txCtx c) bizFn
          TransactionPropagation.PropagationNotSupported s).2
        = { s with trace := s.trace ++ ops2 }) := by
  constructor
  · intro hbrA
    refine ⟨by omega, rfl, rfl, rfl, ?_⟩
    cases r with
    | ok =>
      rcases hc : s.commitErr s.nextTx with _ | ce
      · refine ⟨[DriverOp.commit s.nextTx], ?_, ?_⟩
        · simp [runTransaction, withRequiresNewPropagation, pureCtxOf, getPureDB,
            DBFactory.GetDB, GormDB.WithContext, GormDB.Begin, hbe,
            finishRootFrame, hbrA, transactionContext.Commit,
            transactionContext.Rollback, transactionContext.InTransaction,
            transactionContext.IsRoot, transactionContext.tx,
            transactionContext.parent, hc]
        · intro op hop
          rw [List.mem_singleton] at hop
          exact Or.inl hop
      · refine ⟨[DriverOp.commit s.nextTx, DriverOp.rollback s.nextTx], ?_, ?_⟩
        · simp [runTransaction, withRequiresNewPropagation, pureCtxOf, getPureDB,
            DBFactory.GetDB, GormDB.WithContext, GormDB.Begin, hbe,
            finishRootFrame, hbrA, transactionContext.Commit,
            transactionContext.Rollback, transactionContext.InTransaction,
            transactionContext.IsRoot, transactionContext.tx,
            transactionContext.parent, hc]
        · intro op hop
          rcases List.mem_pair.mp hop with rfl | rfl
          · exact Or.inl rfl
          · exact Or.inr rfl
    | err e =>
      refine ⟨[DriverOp.rollback s.nextTx], ?_, ?_⟩
      · simp [runTransaction, withRequiresNewPropagation, pureCtxOf, getPureDB,
          DBFactory.GetDB, GormDB.WithContext, GormDB.Begin, hbe,
          finishRootFrame, hbrA, transactionContext.Rollback,
          transactionContext.InTransaction, transactionContext.IsRoot,
          transactionContext.tx, transactionContext.parent]
      · intro op hop
        rw [List.mem_singleton] at hop
        exact Or.inr hop
    | fault p =>
      refine ⟨[DriverOp.rollback s.nextTx], ?_, ?_⟩
      · simp [runTransaction, withRequiresNewPropagation, pureCtxOf, getPureDB,
          DBFactory.GetDB, GormDB.WithContext, GormDB.Begin, hbe,
          finishRootFrame, hbrA, transactionContext.Rollback,
          transactionContext.InTransaction, transactionContext.IsRoot,
          transactionContext.tx, transactionContext.parent]
      · intro op hop
        rw [List.mem_singleton] at hop
        exact Or.inr hop
  · intro hbrB
    constructor
    · simp [getPureDB, DBFactory.GetDB, GormDB.WithContext, hpool]
    · cases hr2 : r2 with
    | ok =>
      simp [runTransaction, withNotSupportedPropagation, pureCtxOf, hbrB, hr2]
    | err e =>
      simp [runTransaction, withNotSupportedPropagation, pureCtxOf, hbrB, hr2]
    | fault p =>
      simp [runTransaction, withNotSupportedPropagation, pureCtxOf, hbrB, hr2]

/-- Business functions that probe the shape of the context they are
invoked with: `parentProbeBiz` succeeds only when handed a carrier with
a non-nil parent; `carrierProbeBiz` succeeds only when handed any
carrier. -/
def parentProbeBiz : BizFn := fun cctx _ =>
  match cctx with
  | Context.txCtx (transactionContext.mk _ _ (some _)) => (BizResult.ok, [])
  | _ => (BizResult.err (Err.biz 91), [])

def carrierProbeBiz : BizFn := fun cctx _ =>
  match cctx with
  | Context.txCtx _ => (BizResult.ok, [])
  | Context.base _ => (BizResult.err (Err.biz 92), [])

/-- Counterexample for C5 as originally stated: under a live outer
transaction, (a) the `RequiresNew` carrier has a nil `parent` — a
business function that fails unless its carrier's parent is non-nil
observes the failure, so the claimed "parent points at the suspended
outer carrier" is false; (b) `NotSupported` passes no carrier at all —
a business function that fails unless its context is a carrier observes
the failure. -/
theorem requiresNew_notSupported_suspension_spec_cx :
    runTransaction sampleFactory 0 sampleLiveCtx parentProbeBiz
        TransactionPropagation.PropagationRequiresNew sampleState =
      (Outcome.ret (some (Err.biz 91)),
       { nextTx := 2, trace := [DriverOp.begin 1, DriverOp.rollback 1],
         beginErr := fun _ => none, savepointErr := fun _ _ => none,
         commitErr := fun _ => none }) ∧
    runTransaction sampleFactory 0 sampleLiveCtx carrierProbeBiz
        TransactionPropagation.PropagationNotSupported sampleState =
      (Outcome.ret (some (Err.biz 92)), sampleState) :=
  ⟨rfl, rfl⟩

/-- Witness for C5 with a nil-returning `bizFn` in both frames. -/
theorem requiresNew_notSupported_suspension_spec_witness :
    ((1 : Nat) ≠ 0 ∧
      (transactionContext.mk sampleLiveCtx
        (some { txId := some 1, bound := some 0, errF := none,
                disableNested := false }) none).parent = none ∧
      (transactionContext.mk sampleLiveCtx
        (some { txId := some 1, bound := some 0, errF := none,
                disableNested := false }) none).ctx = sampleLiveCtx ∧
      (transactionContext.mk sampleLiveCtx
        (some { txId := some 1, bound := some 0, errF := none,
                disableNested := false }) none).tx
        = some { txId := some 1, bound := some 0, errF := none,
                 disableNested := false } ∧
      ∃ tail,
        (runTransaction sampleFactory 0 sampleLiveCtx sampleBiz
            TransactionPropagation.PropagationRequiresNew sampleState).2.trace
          = [] ++ [DriverOp.begin 1] ++ [] ++ tail ∧
        ∀ op ∈ tail, op = DriverOp.commit 1 ∨ op = DriverOp.rollback 1) ∧
    ((getPureDB sampleFactory (Context.base 0)).txId = none ∧
      (runTransaction sampleFactory 0 sampleLiveCtx sampleBiz
          TransactionPropagation.PropagationNotSupported sampleState).2
        = sampleState) :=
  ⟨(requiresNew_notSupported_suspension_spec sampleFactory 0 sampleRoot
      sampleTxHandle 0 sampleBiz sampleState BizResult.ok BizResult.ok [] []
      rfl rfl (by decide) rfl rfl).1 rfl,
   (requiresNew_notSupported_suspension_spec sampleFactory 0 sampleRoot
      sampleTxHandle 0 sampleBiz sampleState BizResult.ok BizResult.ok [] []
      rfl rfl (by decide) rfl rfl).2 rfl⟩
